import Mathlib

/-!
Verification development for the `httpsuite` Go library: a shallow embedding
of the request-parsing-and-validation pipeline (`request.go`), the response
envelope writer (`response.go`), the validation adapter
(`NewValidationProblemDetails` / `IsRequestValid`) and the problem-type
registry (`problem_details.go`), together with theorems about their behaviour.

Modelling conventions:
* Go values that `encoding/json` can serialize are modelled by the inductive
  `Json` below; serialization of a struct is a function into `Json` computed
  field by field, honouring the struct tags (`omitempty`).  Values on which
  Go's encoder would fail (channels, cycles, ...) are outside the model, so
  the dead fallback branch of `SendResponse` does not arise.
* `http.ResponseWriter` effects are reified: one write of headers + status +
  body becomes an `HttpWrite` record, and a function that writes through `w`
  returns the `HttpWrite` it produces (or a list of them, in program order).
* External capabilities (the router's parameter extractor, the caller's
  `SetParam`, the go-playground validator engine) are parameters of the
  embedded functions, exactly as loosely as the Go code depends on them.
* Calls the pipeline makes to those capabilities are recorded in an event
  trace, so that "never invokes SetParam for ..." is expressible.
-/

namespace Httpsuite

/-- A JSON value, the codomain of Go's `encoding/json` serialization.
Object fields are kept in the order the encoder emits them. -/
inductive Json : Type where
  | null : Json
  | bool (b : Bool) : Json
  | num (n : Int) : Json
  | str (s : String) : Json
  | arr (xs : List Json) : Json
  | obj (fs : List (String × Json)) : Json
deriving Repr

/-- Go's `omitempty` notion of an empty value: `false`, `0`, `""`, a nil
value, an empty array/slice.  Structs are never empty in Go; since call
sites of the library pass structs (not maps) as payloads, `obj` is treated
as a struct and never empty. -/
def jsonIsEmpty : Json → Bool
  | .null => true
  | .bool b => !b
  | .num n => n == 0
  | .str s => s == ""
  | .arr xs => xs.isEmpty
  | .obj _ => false

/-- Structure `Meta` from `response.go`: pagination metadata, every field tagged
`omitempty`. -/
structure Meta where
  page : Int
  pageSize : Int
  totalPages : Int
  totalItems : Int
deriving Repr, DecidableEq

/-- Serialization of `Meta` honouring the `omitempty` tags
(`page`, `page_size`, `total_pages`, `total_items`). -/
def Meta.toJson (m : Meta) : Json :=
  Json.obj
    ((if m.page = 0 then [] else [("page", Json.num m.page)])
      ++ (if m.pageSize = 0 then [] else [("page_size", Json.num m.pageSize)])
      ++ (if m.totalPages = 0 then [] else [("total_pages", Json.num m.totalPages)])
      ++ (if m.totalItems = 0 then [] else [("total_items", Json.num m.totalItems)]))

/-- Structure `ProblemDetails` from `response.go` (RFC 9457 problem details).
`type` and `instance` are Lean keywords, hence `type_` and `instance_`.
The Go `Extensions map[string]interface{}` is modelled as the list of its
entries in serialization order; the empty list plays the role of the nil
map (both are omitted by `omitempty`). -/
structure ProblemDetails where
  type_ : String
  title : String
  status : Int
  detail : String
  instance_ : String
  extensions : List (String × Json)
deriving Repr

/-- Serialization of `ProblemDetails` honouring its struct tags:
`type`, `title`, `status` always present; `detail`, `instance`,
`extensions` carry `omitempty`. -/
def ProblemDetails.toJson (p : ProblemDetails) : Json :=
  Json.obj
    ([("type", Json.str p.type_), ("title", Json.str p.title),
      ("status", Json.num p.status)]
      ++ (if p.detail = "" then [] else [("detail", Json.str p.detail)])
      ++ (if p.instance_ = "" then [] else [("instance", Json.str p.instance_)])
      ++ (if p.extensions.isEmpty then [] else [("extensions", Json.obj p.extensions)]))

/-- Function `NewProblemDetails` from `response.go`: standard fields, `type`
defaulted to the `about:blank` sentinel. -/
def NewProblemDetails (status : Int) (title detail : String) : ProblemDetails :=
  { type_ := "about:blank", title := title, status := status, detail := detail,
    instance_ := "", extensions := [] }

/-- One write through an `http.ResponseWriter`: the `Content-Type` header,
the status code passed to `WriteHeader`, and the body bytes (as the JSON
value they encode). -/
structure HttpWrite where
  contentType : String
  status : Int
  body : Json
deriving Repr

/-- The characters of a `Content-Type` header value before the first `;`. -/
def mediaTypeChars : List Char → List Char
  | [] => []
  | c :: cs => if c = ';' then [] else c :: mediaTypeChars cs

/-- The media type of a `Content-Type` header value: the part before the
first `;` parameter, e.g. `application/json` out of
`application/json; charset=utf-8`. -/
def mediaType (s : String) : String :=
  ⟨mediaTypeChars s.data⟩

/-- Structure `Response[T]` from `response.go`: the success envelope.  `data` is
`Option Json` (`none` is Go's nil interface); both fields carry
`omitempty`. -/
structure Response where
  data : Option Json
  meta : Option Meta
deriving Repr

/-- Serialization of the success envelope honouring the `omitempty` tags on
`data` and `meta`. -/
def Response.toJson (r : Response) : Json :=
  Json.obj
    ((match r.data with
      | none => []
      | some d => if jsonIsEmpty d then [] else [("data", d)])
      ++ (match r.meta with
          | none => []
          | some m => [("meta", m.toJson)]))

/-- Function `writeProblemDetail` from `response.go`: problem content type, status
taken from the problem itself (the `code` parameter is unused, as in the
source), body the serialized problem. -/
def writeProblemDetail (_code : Int) (problem : ProblemDetails) : HttpWrite :=
  { contentType := "application/problem+json; charset=utf-8",
    status := problem.status,
    body := problem.toJson }

/-- Function `SendResponse` from `response.go`.  The serialization-failure fallback
branch of the source cannot fire here because encoding a `Json` value is
total (see the module comment), so the function reduces to the two live
branches: problem write when `code >= 400 && problem != nil`, success
envelope otherwise. -/
def SendResponse (code : Int) (data : Option Json)
    (problem : Option ProblemDetails) (meta : Option Meta) : HttpWrite :=
  match problem with
  | some p =>
      if 400 ≤ code then
        writeProblemDetail code p
      else
        { contentType := "application/json; charset=utf-8", status := code,
          body := Response.toJson { data := data, meta := meta } }
  | none =>
      { contentType := "application/json; charset=utf-8", status := code,
        body := Response.toJson { data := data, meta := meta } }

/-- A body has the problem-details shape when it is an object carrying the
mandatory `type`, `title` and `status` members. -/
def problemShape : Json → Bool
  | .obj fs => fs.any (·.1 == "type") && fs.any (·.1 == "title")
      && fs.any (·.1 == "status")
  | _ => false

/-- A body has the success-envelope shape when it is an object all of whose
members are `data` or `meta`. -/
def envelopeShape : Json → Bool
  | .obj fs => fs.all (fun p => p.1 == "data" || p.1 == "meta")
  | _ => false

/-! ## Validation adapter (`NewValidationProblemDetails`, `IsRequestValid`) -/

/-- One `validator.FieldError` of the go-playground rule engine, reduced to
the two accessors the library reads: `Field()` and `Tag()` (the violated
constraint's name). -/
structure FieldError where
  field : String
  tag : String
deriving Repr, DecidableEq

/-- The outcome of `validate.Struct(request)`: `nil` (valid), a
`validator.ValidationErrors` list, or some other non-nil error (the case in
which `errors.As` fails in `NewValidationProblemDetails`). -/
inductive StructValidationResult : Type where
  | valid : StructValidationResult
  | violations (errs : List FieldError) : StructValidationResult
  | invalidError : StructValidationResult
deriving Repr

/-- Structure `ValidationErrorDetail`: structured details about a single validation
error (`json:"field"`, `json:"message"`). -/
structure ValidationErrorDetail where
  field : String
  message : String
deriving Repr, DecidableEq

/-- Serialization of `ValidationErrorDetail`. -/
def ValidationErrorDetail.toJson (d : ValidationErrorDetail) : Json :=
  Json.obj [("field", Json.str d.field), ("message", Json.str d.message)]

/-- Function `formatValidationMessage`: descriptive message for one validation
error. -/
def formatValidationMessage (vErr : FieldError) : String :=
  vErr.field ++ " failed " ++ vErr.tag ++ " validation"

/-- Function `NewValidationProblemDetails`.  Its Go argument is the non-nil error
from `validate.Struct`; `some errs` is the case where `errors.As` extracts
a `validator.ValidationErrors`, `none` the case where it does not. -/
def NewValidationProblemDetails (vErrs : Option (List FieldError)) : ProblemDetails :=
  match vErrs with
  | none =>
      NewProblemDetails 400 "Invalid Request" "Invalid data format or structure"
  | some validationErrors =>
      let errorDetails : List ValidationErrorDetail :=
        validationErrors.map fun vErr =>
          { field := vErr.field, message := formatValidationMessage vErr }
      { type_ := "https://example.com/validation-error",
        title := "Validation Error",
        status := 400,
        detail := "One or more fields failed validation.",
        instance_ := "",
        extensions := [("errors", Json.arr (errorDetails.map ValidationErrorDetail.toJson))] }

/-- Function `IsRequestValid`, parametric in the rule engine `validate.Struct`
(external library, supplied as the function `engine`). -/
def IsRequestValid {T : Type} (engine : T → StructValidationResult)
    (request : T) : Option ProblemDetails :=
  match engine request with
  | .valid => none
  | .violations errs => some (NewValidationProblemDetails (some errs))
  | .invalidError => some (NewValidationProblemDetails none)

/-! ## Request pipeline (`ParseRequest` from `request.go`)

The pipeline's external inputs are reified as follows:
* `bodyStream`: `none` is `r.Body == http.NoBody`; `some (.error msg)` a
  body on which `json.Decode` fails with message `msg`; `some (.ok t)` a
  body that decodes (into the zero value) to `t`.  When no body is present
  the `isRequestNil` / `reflect.New` step of the source leaves the target
  at a freshly allocated zero value, which is what `zero` denotes (it also
  absorbs a decoded JSON `null`).
* `paramExtractor`: the caller-supplied `ParamExtractor` already applied to
  the request `r`.
* `setParam`: the target's `SetParam` method, in state-passing form
  (`.ok` returns the updated target).
* `engine`: the validator engine backing `IsRequestValid`.
-/

/-- An observable call the pipeline makes to an external capability. -/
inductive TraceEvent : Type where
  | extractParam (key value : String) : TraceEvent
  | setParamCall (key value : String) : TraceEvent
  | validateCall : TraceEvent
deriving Repr, DecidableEq

/-- The observable outcome of one `ParseRequest` invocation: the responses
written through `w` (in order), the trace of capability calls, and the
returned pair `(T, error)` (`err = none` on success; otherwise the Go error
message). -/
structure ParseOutcome (T : Type) where
  writes : List HttpWrite
  trace : List TraceEvent
  result : T
  err : Option String

/-- The parameter loop of `ParseRequest` followed by the validation step:
`for _, key := range pathParams { ... }` and then `IsRequestValid`. -/
def parseLoop {T : Type} (zero : T)
    (setParam : T → String → String → Except String T)
    (engine : T → StructValidationResult)
    (paramExtractor : String → String) :
    T → List String → ParseOutcome T
  | request, [] =>
      match IsRequestValid engine request with
      | some validationErr =>
          { writes := [SendResponse 400 none (some validationErr) none],
            trace := [.validateCall],
            result := zero,
            err := some "validation error" }
      | none =>
          { writes := [], trace := [.validateCall], result := request, err := none }
  | request, key :: rest =>
      let value := paramExtractor key
      if value = "" then
        let problem := NewProblemDetails 400 "Missing Parameter"
          ("Parameter " ++ key ++ " not found in request")
        { writes := [SendResponse 400 none (some problem) none],
          trace := [.extractParam key value],
          result := zero,
          err := some ("missing parameter: " ++ key) }
      else
        match setParam request key value with
        | .error e =>
            let problem :=
              { NewProblemDetails 500 "Parameter Error" ("Failed to set field " ++ key)
                with extensions := [("error", Json.str e)] }
            { writes := [SendResponse 500 none (some problem) none],
              trace := [.extractParam key value, .setParamCall key value],
              result := zero,
              err := some e }
        | .ok request' =>
            let tail := parseLoop zero setParam engine paramExtractor request' rest
            { tail with
              trace := .extractParam key value :: .setParamCall key value :: tail.trace }

/-- Function `ParseRequest`: body decoding, then the parameter loop, then
validation. -/
def ParseRequest {T : Type} (zero : T)
    (setParam : T → String → String → Except String T)
    (engine : T → StructValidationResult)
    (bodyStream : Option (Except String T))
    (paramExtractor : String → String)
    (pathParams : List String) : ParseOutcome T :=
  match bodyStream with
  | some (.error msg) =>
      let problem := NewProblemDetails 400 "Invalid Request" msg
      { writes := [SendResponse 400 none (some problem) none],
        trace := [],
        result := zero,
        err := some msg }
  | some (.ok t) =>
      parseLoop zero setParam engine paramExtractor t pathParams
  | none =>
      parseLoop zero setParam engine paramExtractor zero pathParams

/-- The manual construction of C8's round-trip property: starting from the
decoded (or zero) target, apply the parameter assignments
`SetParam key (paramExtractor key)` in list order, stopping at the first
failure. -/
def applyParams {T : Type} (setParam : T → String → String → Except String T)
    (paramExtractor : String → String) : T → List String → Except String T
  | t, [] => .ok t
  | t, key :: rest =>
      match setParam t key (paramExtractor key) with
      | .error e => .error e
      | .ok t' => applyParams setParam paramExtractor t' rest

/-! ## Problem-type registry (`problem_details.go`)

The process-wide mutable globals `problemBaseURL` and `errorTypePaths`
(guarded by `mu`) are modelled as an explicit state record threaded through
the configuration and lookup functions.  The Go map is modelled as a
function `String → Option String`. -/

/-- The `about:blank` sentinel (`BlankUrl` in `problem_details.go`). -/
def BlankUrl : String := "about:blank"

/-- The registry globals: base URL and the error-type → path map. -/
structure RegistryState where
  problemBaseURL : String
  errorTypePaths : String → Option String

/-- The initial values of the globals in `problem_details.go`. -/
def defaultRegistryState : RegistryState :=
  { problemBaseURL := BlankUrl,
    errorTypePaths := fun errorType =>
      if errorType = "validation_error" then some "/errors/validation-error"
      else if errorType = "not_found_error" then some "/errors/not-found"
      else if errorType = "server_error" then some "/errors/server-error"
      else if errorType = "bad_request_error" then some "/errors/bad-request"
      else none }

/-- Function `SetProblemBaseURL`. -/
def SetProblemBaseURL (s : RegistryState) (baseURL : String) : RegistryState :=
  { s with problemBaseURL := baseURL }

/-- Function `SetProblemErrorTypePath`: insert-or-overwrite one entry. -/
def SetProblemErrorTypePath (s : RegistryState) (errorType path : String) :
    RegistryState :=
  { s with errorTypePaths := fun k =>
      if k = errorType then some path else s.errorTypePaths k }

/-- Function `SetProblemErrorTypePaths`: insert-or-overwrite many entries. -/
def SetProblemErrorTypePaths (s : RegistryState)
    (paths : List (String × String)) : RegistryState :=
  paths.foldl (fun st p => SetProblemErrorTypePath st p.1 p.2) s

/-- Function `getProblemBaseURL`: the effective base URL — empty while the stored
base URL is still the sentinel. -/
def getProblemBaseURL (s : RegistryState) : String :=
  if s.problemBaseURL = BlankUrl then "" else s.problemBaseURL

/-- Function `GetProblemTypeURL`: resolve an error type to its documentation URL. -/
def GetProblemTypeURL (s : RegistryState) (errorType : String) : String :=
  match s.errorTypePaths errorType with
  | some path => getProblemBaseURL s ++ path
  | none => BlankUrl

/-! ## Theorems -/

/-- Helper: the media type of the problem content-type header. -/
theorem mediaType_problemJson :
    mediaType "application/problem+json; charset=utf-8" = "application/problem+json" := by
  decide

/-- Helper: the media type of the success content-type header. -/
theorem mediaType_json :
    mediaType "application/json; charset=utf-8" = "application/json" := by
  decide

/-- Helper: the success envelope never has the problem-details shape: its
keys are drawn from `data` and `meta` only, so the mandatory `type` member
is absent. -/
theorem response_toJson_problemShape (data : Option Json) (meta : Option Meta) :
    problemShape (Response.toJson { data := data, meta := meta }) = false := by
  have h1 : (("data" : String) == "type") = false := by decide
  have h2 : (("meta" : String) == "type") = false := by decide
  rcases data with _ | d
  · rcases meta with _ | m <;> simp [Response.toJson, problemShape, h1, h2]
  · by_cases he : jsonIsEmpty d = true <;> rcases meta with _ | m <;>
      simp [Response.toJson, problemShape, h1, h2, he]

/-- Helper: a serialized `ProblemDetails` never has the success-envelope
shape: its first member is `type`, which is neither `data` nor `meta`. -/
theorem problemDetails_toJson_envelopeShape (p : ProblemDetails) :
    envelopeShape p.toJson = false := by
  have h1 : (("type" : String) == "data" || ("type" : String) == "meta") = false := by
    decide
  simp [ProblemDetails.toJson, envelopeShape, h1]

/-- C1: the writer `SendResponse(w, statusCode, data, problem, meta)` branches as
specified: with `statusCode ≥ 400` and a non-nil problem it writes the
serialized `ProblemDetails` with media type `application/problem+json` and
transport status `problem.status` (the caller-supplied code is ignored),
and the body is never of success-envelope shape; otherwise it writes the
`{data, meta}` envelope (zero/absent fields omitted by serialization) with
media type `application/json` and transport status `statusCode`, and the
body is never of problem shape. -/
theorem C1_SendResponse_branches (code : Int) (data : Option Json)
    (problem : Option ProblemDetails) (meta : Option Meta) :
    (∀ p, problem = some p → 400 ≤ code →
      SendResponse code data problem meta = writeProblemDetail code p ∧
      (writeProblemDetail code p).body = p.toJson ∧
      mediaType (writeProblemDetail code p).contentType = "application/problem+json" ∧
      (writeProblemDetail code p).status = p.status ∧
      envelopeShape (writeProblemDetail code p).body = false) ∧
    ((problem = none ∨ code < 400) →
      SendResponse code data problem meta =
        { contentType := "application/json; charset=utf-8", status := code,
          body := Response.toJson { data := data, meta := meta } } ∧
      mediaType "application/json; charset=utf-8" = "application/json" ∧
      problemShape (Response.toJson { data := data, meta := meta }) = false) := by
  constructor
  · rintro p rfl hcode
    refine ⟨?_, rfl, mediaType_problemJson, rfl, problemDetails_toJson_envelopeShape p⟩
    simp [SendResponse, hcode]
  · rintro (rfl | hlt)
    · exact ⟨rfl, mediaType_json, response_toJson_problemShape data meta⟩
    · rcases problem with _ | p
      · exact ⟨rfl, mediaType_json, response_toJson_problemShape data meta⟩
      · refine ⟨?_, mediaType_json, response_toJson_problemShape data meta⟩
        simp [SendResponse, if_neg (by omega : ¬ (400 : Int) ≤ code)]

/-- Witness for C1 at concrete inputs: a 404 problem write takes its status
from the problem and is not envelope-shaped; a 200 data write has media
type `application/json`. -/
theorem C1_SendResponse_branches_witness :
    SendResponse 404 none (some (NewProblemDetails 404 "Not Found" "missing")) none
      = writeProblemDetail 404 (NewProblemDetails 404 "Not Found" "missing") ∧
    (writeProblemDetail 404 (NewProblemDetails 404 "Not Found" "missing")).status = 404 ∧
    envelopeShape
      (writeProblemDetail 404 (NewProblemDetails 404 "Not Found" "missing")).body = false ∧
    SendResponse 200 (some (Json.str "ok")) none none =
      { contentType := "application/json; charset=utf-8", status := 200,
        body := Response.toJson { data := some (Json.str "ok"), meta := none } } := by
  have h := C1_SendResponse_branches 404 none
    (some (NewProblemDetails 404 "Not Found" "missing")) none
  have h' := C1_SendResponse_branches 200 (some (Json.str "ok")) none none
  obtain ⟨he, -, -, hs, hshape⟩ := h.1 _ rfl (by norm_num)
  exact ⟨he, hs, hshape, (h'.2 (Or.inl rfl)).1⟩

/-- C7: the resolver `GetProblemTypeURL` returns the effective base URL (empty while the
stored base URL is still the `about:blank` sentinel) concatenated with the
key's path when the key is present, and the unchanged sentinel when the key
is absent. -/
theorem C7_GetProblemTypeURL (s : RegistryState) (errorType : String) :
    (∀ path, s.errorTypePaths errorType = some path →
      GetProblemTypeURL s errorType = getProblemBaseURL s ++ path ∧
      (s.problemBaseURL = BlankUrl → GetProblemTypeURL s errorType = path) ∧
      (s.problemBaseURL ≠ BlankUrl →
        GetProblemTypeURL s errorType = s.problemBaseURL ++ path)) ∧
    (s.errorTypePaths errorType = none →
      GetProblemTypeURL s errorType = BlankUrl) := by
  constructor
  · intro path hpath
    refine ⟨by simp [GetProblemTypeURL, hpath], ?_, ?_⟩
    · intro hb
      simp [GetProblemTypeURL, hpath, getProblemBaseURL, hb]
    · intro hb
      simp [GetProblemTypeURL, hpath, getProblemBaseURL, hb]
  · intro hnone
    simp [GetProblemTypeURL, hnone]

/-- Witness for C7, spec Scenario 5: with base URL
`https://api.example.com`, `validation_error` resolves to the concatenated
documentation URL, and an unknown category resolves to the sentinel. -/
theorem C7_GetProblemTypeURL_witness :
    GetProblemTypeURL (SetProblemBaseURL defaultRegistryState "https://api.example.com")
        "validation_error" = "https://api.example.com/errors/validation-error" ∧
    GetProblemTypeURL (SetProblemBaseURL defaultRegistryState "https://api.example.com")
        "unknown_category" = BlankUrl ∧
    GetProblemTypeURL defaultRegistryState "validation_error" = "/errors/validation-error" := by
  have h1 := C7_GetProblemTypeURL
    (SetProblemBaseURL defaultRegistryState "https://api.example.com") "validation_error"
  have h2 := C7_GetProblemTypeURL
    (SetProblemBaseURL defaultRegistryState "https://api.example.com") "unknown_category"
  have h3 := C7_GetProblemTypeURL defaultRegistryState "validation_error"
  refine ⟨?_, h2.2 (by decide), ?_⟩
  · have := ((h1.1 "/errors/validation-error" (by decide)).2.2 (by decide))
    simpa [SetProblemBaseURL] using this
  · exact (h3.1 "/errors/validation-error" (by decide)).2.1 (by decide)

/-- Helper: when the body either is absent (so the target is the freshly
allocated zero value) or decodes to `request0`, `ParseRequest` is the
parameter loop started at `request0`. -/
theorem ParseRequest_eq_parseLoop {T : Type} (zero : T)
    (setParam : T → String → String → Except String T)
    (engine : T → StructValidationResult)
    (bodyStream : Option (Except String T))
    (paramExtractor : String → String)
    (pathParams : List String) (request0 : T)
    (hbody : bodyStream = none ∧ request0 = zero ∨
      bodyStream = some (Except.ok request0)) :
    ParseRequest zero setParam engine bodyStream paramExtractor pathParams
      = parseLoop zero setParam engine paramExtractor request0 pathParams := by
  rcases hbody with ⟨rfl, rfl⟩ | rfl <;> rfl

/-- Helper: running the parameter loop over `ps1 ++ rest` when every name
in `ps1` extracts non-empty and every assignment over `ps1` succeeds
(reaching state `t1`) behaves like the loop over `rest` started at `t1`;
the extra leading trace events all concern names of `ps1`. -/
theorem parseLoop_append_ok {T : Type} (zero : T)
    (setParam : T → String → String → Except String T)
    (engine : T → StructValidationResult)
    (paramExtractor : String → String)
    (ps1 rest : List String) :
    ∀ request0 t1 : T, (∀ k ∈ ps1, paramExtractor k ≠ "") →
      applyParams setParam paramExtractor request0 ps1 = Except.ok t1 →
      (parseLoop zero setParam engine paramExtractor request0 (ps1 ++ rest)).writes
        = (parseLoop zero setParam engine paramExtractor t1 rest).writes ∧
      (parseLoop zero setParam engine paramExtractor request0 (ps1 ++ rest)).err
        = (parseLoop zero setParam engine paramExtractor t1 rest).err ∧
      (parseLoop zero setParam engine paramExtractor request0 (ps1 ++ rest)).result
        = (parseLoop zero setParam engine paramExtractor t1 rest).result ∧
      ∃ pre, (parseLoop zero setParam engine paramExtractor request0 (ps1 ++ rest)).trace
          = pre ++ (parseLoop zero setParam engine paramExtractor t1 rest).trace ∧
        ∀ e ∈ pre, ∃ k v, k ∈ ps1 ∧
          (e = TraceEvent.extractParam k v ∨ e = TraceEvent.setParamCall k v) := by
  induction ps1 with
  | nil =>
    intro request0 t1 _ hok
    simp only [applyParams, Except.ok.injEq] at hok
    subst hok
    exact ⟨rfl, rfl, rfl, [], by simp, by simp⟩
  | cons k ks ih =>
    intro request0 t1 hne hok
    have hkne : paramExtractor k ≠ "" := hne k (List.mem_cons_self ..)
    rcases hset : setParam request0 k (paramExtractor k) with e | r'
    · simp only [applyParams, hset] at hok
      simp at hok
    · simp only [applyParams, hset] at hok
      obtain ⟨hw, he, hr, pre, htr, hpre⟩ :=
        ih r' t1 (fun x hx => hne x (List.mem_cons_of_mem _ hx)) hok
      simp only [List.cons_append, parseLoop, hkne, if_false, hset]
      refine ⟨hw, he, hr,
        TraceEvent.extractParam k (paramExtractor k) ::
          TraceEvent.setParamCall k (paramExtractor k) :: pre, ?_, ?_⟩
      · simp [htr]
      · intro e he'
        rcases List.mem_cons.mp he' with rfl | he'
        · exact ⟨k, paramExtractor k, List.mem_cons_self .., Or.inl rfl⟩
        rcases List.mem_cons.mp he' with rfl | hmem
        · exact ⟨k, paramExtractor k, List.mem_cons_self .., Or.inr rfl⟩
        · obtain ⟨k', v', hk', heq⟩ := hpre e hmem
          exact ⟨k', v', List.mem_cons_of_mem _ hk', heq⟩

/-- Helper: on every run of the parameter loop, the number of responses
written is one exactly when an error is returned (and zero otherwise), and
whenever an error is returned the result is the zero value. -/
theorem parseLoop_write_count {T : Type} (zero : T)
    (setParam : T → String → String → Except String T)
    (engine : T → StructValidationResult)
    (paramExtractor : String → String)
    (params : List String) :
    ∀ request : T,
      ((parseLoop zero setParam engine paramExtractor request params).writes.length
        = if (parseLoop zero setParam engine paramExtractor request params).err.isSome
          then 1 else 0) ∧
      ((parseLoop zero setParam engine paramExtractor request params).err.isSome = true →
        (parseLoop zero setParam engine paramExtractor request params).result = zero) := by
  induction params with
  | nil =>
    intro request
    cases hv : IsRequestValid engine request <;> simp [parseLoop, hv]
  | cons key rest ih =>
    intro request
    by_cases hk : paramExtractor key = ""
    · simp [parseLoop, hk]
    · rcases hset : setParam request key (paramExtractor key) with e | r'
      · simp [parseLoop, hk, hset]
      · have h := ih r'
        simp only [parseLoop, hk, if_false, hset]
        exact h

/-- C3: when the body stream is non-empty and fails to decode, `ParseRequest`
emits exactly one ProblemDescription with status 400, title
"Invalid Request" and detail equal to the decoder's error message, returns
the zero value together with the parse error, and performs no parameter
extraction, assignment or validation. -/
theorem C3_ParseRequest_decodeError {T : Type} (zero : T)
    (setParam : T → String → String → Except String T)
    (engine : T → StructValidationResult)
    (bodyStream : Option (Except String T))
    (paramExtractor : String → String)
    (pathParams : List String) (msg : String)
    (hbody : bodyStream = some (Except.error msg)) :
    (ParseRequest zero setParam engine bodyStream paramExtractor pathParams).writes
      = [SendResponse 400 none
          (some (NewProblemDetails 400 "Invalid Request" msg)) none] ∧
    (SendResponse 400 none
        (some (NewProblemDetails 400 "Invalid Request" msg)) none).status = 400 ∧
    (SendResponse 400 none
        (some (NewProblemDetails 400 "Invalid Request" msg)) none).body
      = (NewProblemDetails 400 "Invalid Request" msg).toJson ∧
    mediaType (SendResponse 400 none
        (some (NewProblemDetails 400 "Invalid Request" msg)) none).contentType
      = "application/problem+json" ∧
    (NewProblemDetails 400 "Invalid Request" msg).title = "Invalid Request" ∧
    (NewProblemDetails 400 "Invalid Request" msg).detail = msg ∧
    (ParseRequest zero setParam engine bodyStream paramExtractor pathParams).result
      = zero ∧
    (ParseRequest zero setParam engine bodyStream paramExtractor pathParams).err
      = some msg ∧
    (ParseRequest zero setParam engine bodyStream paramExtractor pathParams).trace
      = [] := by
  subst hbody
  exact ⟨rfl, rfl, rfl, mediaType_problemJson, rfl, rfl, rfl, rfl, rfl⟩

/-- Witness for C3: a concrete malformed body. -/
theorem C3_ParseRequest_decodeError_witness :
    (ParseRequest (0 : Nat) (fun t _ _ => Except.ok t)
        (fun _ => StructValidationResult.valid)
        (some (Except.error "invalid character i looking for beginning of value"))
        (fun _ => "123") ["id"]).writes
      = [SendResponse 400 none (some (NewProblemDetails 400 "Invalid Request"
          "invalid character i looking for beginning of value")) none] ∧
    (ParseRequest (0 : Nat) (fun t _ _ => Except.ok t)
        (fun _ => StructValidationResult.valid)
        (some (Except.error "invalid character i looking for beginning of value"))
        (fun _ => "123") ["id"]).err
      = some "invalid character i looking for beginning of value" ∧
    (ParseRequest (0 : Nat) (fun t _ _ => Except.ok t)
        (fun _ => StructValidationResult.valid)
        (some (Except.error "invalid character i looking for beginning of value"))
        (fun _ => "123") ["id"]).trace = [] := by
  have h := C3_ParseRequest_decodeError (0 : Nat) (fun t _ _ => Except.ok t)
    (fun _ => StructValidationResult.valid)
    (some (Except.error "invalid character i looking for beginning of value"))
    (fun _ => "123") ["id"]
    "invalid character i looking for beginning of value" rfl
  exact ⟨h.1, h.2.2.2.2.2.2.2.1, h.2.2.2.2.2.2.2.2⟩

/-- C9: every failing run of `ParseRequest` writes exactly one response and
every successful run writes nothing. -/
theorem C9_write_iff_error {T : Type} (zero : T)
    (setParam : T → String → String → Except String T)
    (engine : T → StructValidationResult)
    (bodyStream : Option (Except String T))
    (paramExtractor : String → String)
    (pathParams : List String) :
    ((ParseRequest zero setParam engine bodyStream paramExtractor pathParams).err.isSome
        = true →
      (ParseRequest zero setParam engine bodyStream paramExtractor pathParams).writes.length
        = 1) ∧
    ((ParseRequest zero setParam engine bodyStream paramExtractor pathParams).err = none →
      (ParseRequest zero setParam engine bodyStream paramExtractor pathParams).writes
        = []) := by
  rcases bodyStream with _ | exc
  · have h := (parseLoop_write_count zero setParam engine paramExtractor pathParams zero).1
    constructor
    · intro he
      have h' : (parseLoop zero setParam engine paramExtractor zero pathParams).writes.length
          = if (parseLoop zero setParam engine paramExtractor zero pathParams).err.isSome
            then 1 else 0 := h
      rw [show ((ParseRequest zero setParam engine none paramExtractor pathParams).err.isSome
          = true) = ((parseLoop zero setParam engine paramExtractor zero pathParams).err.isSome
          = true) from rfl] at he
      show (parseLoop zero setParam engine paramExtractor zero pathParams).writes.length = 1
      rw [h', if_pos he]
    · intro he
      have he' : (parseLoop zero setParam engine paramExtractor zero pathParams).err = none := he
      show (parseLoop zero setParam engine paramExtractor zero pathParams).writes = []
      have h' := h
      rw [he'] at h'
      simpa using h'
  · rcases exc with msg | t
    · exact ⟨fun _ => rfl, fun he => by simp [ParseRequest] at he⟩
    · have h := (parseLoop_write_count zero setParam engine paramExtractor pathParams t).1
      constructor
      · intro he
        have he' : (parseLoop zero setParam engine paramExtractor t pathParams).err.isSome
            = true := he
        show (parseLoop zero setParam engine paramExtractor t pathParams).writes.length = 1
        rw [h, if_pos he']
      · intro he
        have he' : (parseLoop zero setParam engine paramExtractor t pathParams).err = none := he
        show (parseLoop zero setParam engine paramExtractor t pathParams).writes = []
        have h' := h
        rw [he'] at h'
        simpa using h'

/-- Witness for C9: a successful concrete run writes nothing; a failing
concrete run writes exactly one response. -/
theorem C9_write_iff_error_witness :
    (ParseRequest (0 : Nat) (fun t _ _ => Except.ok t)
        (fun _ => StructValidationResult.valid) none (fun _ => "v") ["id"]).writes = [] ∧
    (ParseRequest (0 : Nat) (fun t _ _ => Except.ok t)
        (fun _ => StructValidationResult.valid) none (fun _ => "") ["id"]).writes.length
      = 1 := by
  have h1 := C9_write_iff_error (0 : Nat) (fun t _ _ => Except.ok t)
    (fun _ => StructValidationResult.valid) none (fun _ => "v") ["id"]
  have h2 := C9_write_iff_error (0 : Nat) (fun t _ _ => Except.ok t)
    (fun _ => StructValidationResult.valid) none (fun _ => "") ["id"]
  exact ⟨h1.2 rfl, h2.1 rfl⟩

/-- C10: on every failure path, `ParseRequest` returns the zero value of
the target type, never the partially populated target. -/
theorem C10_zero_result_on_failure {T : Type} (zero : T)
    (setParam : T → String → String → Except String T)
    (engine : T → StructValidationResult)
    (bodyStream : Option (Except String T))
    (paramExtractor : String → String)
    (pathParams : List String) (e : String)
    (h : (ParseRequest zero setParam engine bodyStream paramExtractor pathParams).err
      = some e) :
    (ParseRequest zero setParam engine bodyStream paramExtractor pathParams).result
      = zero := by
  rcases bodyStream with _ | exc
  · have h' : (parseLoop zero setParam engine paramExtractor zero pathParams).err
        = some e := h
    exact (parseLoop_write_count zero setParam engine paramExtractor pathParams zero).2
      (by rw [h']; rfl)
  · rcases exc with msg | t
    · rfl
    · have h' : (parseLoop zero setParam engine paramExtractor t pathParams).err
          = some e := h
      exact (parseLoop_write_count zero setParam engine paramExtractor pathParams t).2
        (by rw [h']; rfl)

/-- Witness for C10: a run that fails while assembling the target (missing
second parameter after a successful first assignment) still returns the
zero value, not the partially assembled one. -/
theorem C10_zero_result_on_failure_witness :
    (ParseRequest (0 : Nat) (fun t _ v => Except.ok (t + v.length))
        (fun _ => StructValidationResult.valid) none
        (fun k => if k = "id" then "123" else "") ["id", "name"]).result = 0 := by
  exact C10_zero_result_on_failure (0 : Nat) (fun t _ v => Except.ok (t + v.length))
    (fun _ => StructValidationResult.valid) none
    (fun k => if k = "id" then "123" else "") ["id", "name"]
    "missing parameter: name" rfl

/-- C2: path parameter names are processed in order; at the first name whose
extraction is empty (all earlier names having extracted non-empty and been
assigned successfully), the pipeline emits a status-400 ProblemDescription
whose detail names the missing key, returns a missing-parameter error, and
`SetParam` is never invoked for that name or any later name (every recorded
`SetParam` call concerns a name of the already-processed prefix). -/
theorem C2_missing_parameter {T : Type} (zero : T)
    (setParam : T → String → String → Except String T)
    (engine : T → StructValidationResult)
    (bodyStream : Option (Except String T))
    (paramExtractor : String → String)
    (ps1 ps2 : List String) (key : String) (request0 t1 : T)
    (hbody : bodyStream = none ∧ request0 = zero ∨
      bodyStream = some (Except.ok request0))
    (hne : ∀ k ∈ ps1, paramExtractor k ≠ "")
    (hok : applyParams setParam paramExtractor request0 ps1 = Except.ok t1)
    (hkey : paramExtractor key = "") :
    (ParseRequest zero setParam engine bodyStream paramExtractor
        (ps1 ++ key :: ps2)).writes
      = [SendResponse 400 none (some (NewProblemDetails 400 "Missing Parameter"
          ("Parameter " ++ key ++ " not found in request"))) none] ∧
    (SendResponse 400 none (some (NewProblemDetails 400 "Missing Parameter"
        ("Parameter " ++ key ++ " not found in request"))) none).status = 400 ∧
    (NewProblemDetails 400 "Missing Parameter"
        ("Parameter " ++ key ++ " not found in request")).detail
      = "Parameter " ++ key ++ " not found in request" ∧
    (ParseRequest zero setParam engine bodyStream paramExtractor
        (ps1 ++ key :: ps2)).err
      = some ("missing parameter: " ++ key) ∧
    (∀ v, TraceEvent.setParamCall key v ∉
      (ParseRequest zero setParam engine bodyStream paramExtractor
        (ps1 ++ key :: ps2)).trace) ∧
    (∀ k, k ∈ ps2 → k ∉ ps1 → ∀ v, TraceEvent.setParamCall k v ∉
      (ParseRequest zero setParam engine bodyStream paramExtractor
        (ps1 ++ key :: ps2)).trace) ∧
    (∀ k v, TraceEvent.setParamCall k v ∈
        (ParseRequest zero setParam engine bodyStream paramExtractor
          (ps1 ++ key :: ps2)).trace → k ∈ ps1) := by
  rw [ParseRequest_eq_parseLoop zero setParam engine bodyStream paramExtractor
    (ps1 ++ key :: ps2) request0 hbody]
  obtain ⟨hw, he, hr, pre, htr, hpre⟩ :=
    parseLoop_append_ok zero setParam engine paramExtractor ps1 (key :: ps2)
      request0 t1 hne hok
  have htail : parseLoop zero setParam engine paramExtractor t1 (key :: ps2)
      = { writes := [SendResponse 400 none (some (NewProblemDetails 400
            "Missing Parameter" ("Parameter " ++ key ++ " not found in request"))) none],
          trace := [TraceEvent.extractParam key ""],
          result := zero,
          err := some ("missing parameter: " ++ key) } := by
    simp [parseLoop, hkey]
  have hmem : ∀ k v, TraceEvent.setParamCall k v ∈
      (parseLoop zero setParam engine paramExtractor request0 (ps1 ++ key :: ps2)).trace →
      k ∈ ps1 := by
    intro k v hm
    rw [htr, htail] at hm
    rcases List.mem_append.mp hm with hm | hm
    · obtain ⟨k', v', hk', heq⟩ := hpre _ hm
      rcases heq with heq | heq
      · exact absurd heq (by simp)
      · rw [TraceEvent.setParamCall.injEq] at heq
        rw [heq.1]
        exact hk'
    · simp at hm
  refine ⟨by rw [hw, htail], rfl, rfl, by rw [he, htail], ?_, ?_, hmem⟩
  · intro v hv
    exact absurd hkey (hne key (hmem key v hv))
  · intro k _ hknot v hv
    exact hknot (hmem k v hv)

/-- Witness for C2: with `pathParams = ["id", "name"]` and an extractor
empty at `"id"`, the run reports the missing `id` and `SetParam` is never
called for `"name"`. -/
theorem C2_missing_parameter_witness :
    (ParseRequest (0 : Nat) (fun t _ v => Except.ok (t + v.length))
        (fun _ => StructValidationResult.valid) none
        (fun k => if k = "id" then "" else "x") ["id", "name"]).err
      = some "missing parameter: id" ∧
    (ParseRequest (0 : Nat) (fun t _ v => Except.ok (t + v.length))
        (fun _ => StructValidationResult.valid) none
        (fun k => if k = "id" then "" else "x") ["id", "name"]).writes
      = [SendResponse 400 none (some (NewProblemDetails 400 "Missing Parameter"
          "Parameter id not found in request")) none] ∧
    TraceEvent.setParamCall "name" "x" ∉
      (ParseRequest (0 : Nat) (fun t _ v => Except.ok (t + v.length))
        (fun _ => StructValidationResult.valid) none
        (fun k => if k = "id" then "" else "x") ["id", "name"]).trace := by
  have h := C2_missing_parameter (0 : Nat) (fun t _ v => Except.ok (t + v.length))
    (fun _ => StructValidationResult.valid) none
    (fun k => if k = "id" then "" else "x") [] ["name"] "id" 0 0
    (Or.inl ⟨rfl, rfl⟩) (by simp) rfl rfl
  exact ⟨h.2.2.2.1, h.1, h.2.2.2.2.2.1 "name" (by simp) (by simp) "x"⟩

/-- C4: when `SetParam` fails at some parameter (all earlier names having
been extracted non-empty and assigned successfully), the pipeline emits a
status-500 ProblemDescription whose extensions map carries the underlying
error text, returns that error, and performs no further assignment and no
validation. -/
theorem C4_setParam_error {T : Type} (zero : T)
    (setParam : T → String → String → Except String T)
    (engine : T → StructValidationResult)
    (bodyStream : Option (Except String T))
    (paramExtractor : String → String)
    (ps1 ps2 : List String) (key : String) (request0 t1 : T) (e : String)
    (hbody : bodyStream = none ∧ request0 = zero ∨
      bodyStream = some (Except.ok request0))
    (hne : ∀ k ∈ ps1, paramExtractor k ≠ "")
    (hok : applyParams setParam paramExtractor request0 ps1 = Except.ok t1)
    (hkey : paramExtractor key ≠ "")
    (hset : setParam t1 key (paramExtractor key) = Except.error e) :
    (ParseRequest zero setParam engine bodyStream paramExtractor
        (ps1 ++ key :: ps2)).writes
      = [SendResponse 500 none
          (some { NewProblemDetails 500 "Parameter Error" ("Failed to set field " ++ key)
              with extensions := [("error", Json.str e)] }) none] ∧
    ({ NewProblemDetails 500 "Parameter Error" ("Failed to set field " ++ key)
        with extensions := [("error", Json.str e)] }).status = 500 ∧
    ({ NewProblemDetails 500 "Parameter Error" ("Failed to set field " ++ key)
        with extensions := [("error", Json.str e)] }).extensions
      = [("error", Json.str e)] ∧
    (SendResponse 500 none
        (some { NewProblemDetails 500 "Parameter Error" ("Failed to set field " ++ key)
            with extensions := [("error", Json.str e)] }) none).status = 500 ∧
    (ParseRequest zero setParam engine bodyStream paramExtractor
        (ps1 ++ key :: ps2)).err = some e ∧
    TraceEvent.validateCall ∉
      (ParseRequest zero setParam engine bodyStream paramExtractor
        (ps1 ++ key :: ps2)).trace ∧
    (∀ k v, TraceEvent.setParamCall k v ∈
        (ParseRequest zero setParam engine bodyStream paramExtractor
          (ps1 ++ key :: ps2)).trace →
      k ∈ ps1 ∨ (k = key ∧ v = paramExtractor key)) := by
  rw [ParseRequest_eq_parseLoop zero setParam engine bodyStream paramExtractor
    (ps1 ++ key :: ps2) request0 hbody]
  obtain ⟨hw, he, hr, pre, htr, hpre⟩ :=
    parseLoop_append_ok zero setParam engine paramExtractor ps1 (key :: ps2)
      request0 t1 hne hok
  have htail : parseLoop zero setParam engine paramExtractor t1 (key :: ps2)
      = { writes := [SendResponse 500 none
            (some { NewProblemDetails 500 "Parameter Error" ("Failed to set field " ++ key)
                with extensions := [("error", Json.str e)] }) none],
          trace := [TraceEvent.extractParam key (paramExtractor key),
            TraceEvent.setParamCall key (paramExtractor key)],
          result := zero,
          err := some e } := by
    simp [parseLoop, hkey, hset]
  refine ⟨by rw [hw, htail], rfl, rfl, rfl, by rw [he, htail], ?_, ?_⟩
  · intro hv
    rw [htr, htail] at hv
    rcases List.mem_append.mp hv with hv | hv
    · obtain ⟨k', v', _, heq⟩ := hpre _ hv
      rcases heq with heq | heq <;> exact absurd heq (by simp)
    · simp at hv
  · intro k v hv
    rw [htr, htail] at hv
    rcases List.mem_append.mp hv with hv | hv
    · obtain ⟨k', v', hk', heq⟩ := hpre _ hv
      rcases heq with heq | heq
      · exact absurd heq (by simp)
      · rw [TraceEvent.setParamCall.injEq] at heq
        rw [heq.1]
        exact Or.inl hk'
    · rcases List.mem_cons.mp hv with heq | hv
      · exact absurd heq (by simp)
      · rcases List.mem_cons.mp hv with heq | hv
        · rw [TraceEvent.setParamCall.injEq] at heq
          exact Or.inr ⟨heq.1, heq.2⟩
        · simp at hv

/-- Witness for C4: a coercion failure on `"id"` yields the 500 problem with
the error text in the extensions, and validation never runs. -/
theorem C4_setParam_error_witness :
    (ParseRequest (0 : Nat) (fun _ _ _ => Except.error "invalid id")
        (fun _ => StructValidationResult.valid) none
        (fun _ => "abc") ["id"]).err = some "invalid id" ∧
    (ParseRequest (0 : Nat) (fun _ _ _ => Except.error "invalid id")
        (fun _ => StructValidationResult.valid) none
        (fun _ => "abc") ["id"]).writes
      = [SendResponse 500 none
          (some { NewProblemDetails 500 "Parameter Error" "Failed to set field id"
              with extensions := [("error", Json.str "invalid id")] }) none] ∧
    TraceEvent.validateCall ∉
      (ParseRequest (0 : Nat) (fun _ _ _ => Except.error "invalid id")
        (fun _ => StructValidationResult.valid) none
        (fun _ => "abc") ["id"]).trace := by
  have h := C4_setParam_error (0 : Nat) (fun _ _ _ => Except.error "invalid id")
    (fun _ => StructValidationResult.valid) none (fun _ => "abc")
    [] [] "id" 0 0 "invalid id"
    (Or.inl ⟨rfl, rfl⟩) (by simp) rfl (by simp) rfl
  exact ⟨h.2.2.2.2.1, h.1, h.2.2.2.2.2.1⟩

/-- C8: on a run whose body decodes successfully (or is absent), whose
parameters all extract non-empty and assign without error, and whose
assembled target validates, `ParseRequest` returns exactly the object
obtained by decoding the body into a zero value and then applying the same
parameter assignments in order (`applyParams`), together with no error and
no write. -/
theorem C8_roundtrip {T : Type} (zero : T)
    (setParam : T → String → String → Except String T)
    (engine : T → StructValidationResult)
    (bodyStream : Option (Except String T))
    (paramExtractor : String → String)
    (pathParams : List String) (request0 tfinal : T)
    (hbody : bodyStream = none ∧ request0 = zero ∨
      bodyStream = some (Except.ok request0))
    (hne : ∀ k ∈ pathParams, paramExtractor k ≠ "")
    (hok : applyParams setParam paramExtractor request0 pathParams
      = Except.ok tfinal)
    (hvalid : engine tfinal = StructValidationResult.valid) :
    (ParseRequest zero setParam engine bodyStream paramExtractor pathParams).result
      = tfinal ∧
    (ParseRequest zero setParam engine bodyStream paramExtractor pathParams).err
      = none ∧
    (ParseRequest zero setParam engine bodyStream paramExtractor pathParams).writes
      = [] := by
  rw [ParseRequest_eq_parseLoop zero setParam engine bodyStream paramExtractor
    pathParams request0 hbody]
  have happ := parseLoop_append_ok zero setParam engine paramExtractor pathParams []
    request0 tfinal hne hok
  simp only [List.append_nil] at happ
  obtain ⟨hw, he, hr, -, -, -⟩ := happ
  have htail : parseLoop zero setParam engine paramExtractor tfinal []
      = { writes := [], trace := [TraceEvent.validateCall], result := tfinal,
          err := none } := by
    simp [parseLoop, IsRequestValid, hvalid]
  exact ⟨by rw [hr, htail], by rw [he, htail], by rw [hw, htail]⟩

/-- Witness for C8: a concrete run (body decodes to `30`, parameter `id`
adds the length of `"123"`) returns exactly the manually folded value `33`
with no error and no write. -/
theorem C8_roundtrip_witness :
    (ParseRequest (0 : Nat) (fun t _ v => Except.ok (t + v.length))
        (fun _ => StructValidationResult.valid) (some (Except.ok 30))
        (fun _ => "123") ["id"]).result = 33 ∧
    (ParseRequest (0 : Nat) (fun t _ v => Except.ok (t + v.length))
        (fun _ => StructValidationResult.valid) (some (Except.ok 30))
        (fun _ => "123") ["id"]).err = none ∧
    (ParseRequest (0 : Nat) (fun t _ v => Except.ok (t + v.length))
        (fun _ => StructValidationResult.valid) (some (Except.ok 30))
        (fun _ => "123") ["id"]).writes = [] := by
  exact C8_roundtrip (0 : Nat) (fun t _ v => Except.ok (t + v.length))
    (fun _ => StructValidationResult.valid) (some (Except.ok 30))
    (fun _ => "123") ["id"] 30 33
    (Or.inr rfl) (by simp) rfl rfl

/-- Counterexample for C5: the problem emitted on a validation failure has
`type` hard-coded to `https://example.com/validation-error`, which is
neither the `about:blank` sentinel nor a registry-resolved
validation-error URI (default or configured). -/
theorem C5_counterexample :
    (ParseRequest () (fun t _ _ => Except.ok t)
        (fun _ => StructValidationResult.violations
          [{ field := "Name", tag := "required" }])
        none (fun _ => "x") []).writes
      = [SendResponse 400 none (some (NewValidationProblemDetails
          (some [{ field := "Name", tag := "required" }]))) none] ∧
    (NewValidationProblemDetails
        (some [{ field := "Name", tag := "required" }])).type_
      = "https://example.com/validation-error" ∧
    (NewValidationProblemDetails
        (some [{ field := "Name", tag := "required" }])).type_ ≠ BlankUrl ∧
    (NewValidationProblemDetails
        (some [{ field := "Name", tag := "required" }])).type_
      ≠ GetProblemTypeURL defaultRegistryState "validation_error" ∧
    (NewValidationProblemDetails
        (some [{ field := "Name", tag := "required" }])).type_
      ≠ GetProblemTypeURL
          (SetProblemBaseURL defaultRegistryState "https://api.example.com")
          "validation_error" := by
  refine ⟨rfl, rfl, ?_, ?_, ?_⟩ <;> decide

/-- C5 as amended: on a validation failure the emitted ProblemDescription
has status 400, title "Validation Error", detail
"One or more fields failed validation.", extensions carrying the structured
per-field error list, and a `type` field equal to the fixed URI
`https://example.com/validation-error`; the pipeline returns a validation
error. -/
theorem C5_validation_problem {T : Type} (zero : T)
    (setParam : T → String → String → Except String T)
    (engine : T → StructValidationResult)
    (bodyStream : Option (Except String T))
    (paramExtractor : String → String)
    (pathParams : List String) (request0 t1 : T) (errs : List FieldError)
    (hbody : bodyStream = none ∧ request0 = zero ∨
      bodyStream = some (Except.ok request0))
    (hne : ∀ k ∈ pathParams, paramExtractor k ≠ "")
    (hok : applyParams setParam paramExtractor request0 pathParams
      = Except.ok t1)
    (hviol : engine t1 = StructValidationResult.violations errs) :
    (ParseRequest zero setParam engine bodyStream paramExtractor pathParams).writes
      = [SendResponse 400 none
          (some (NewValidationProblemDetails (some errs))) none] ∧
    (NewValidationProblemDetails (some errs)).status = 400 ∧
    (NewValidationProblemDetails (some errs)).title = "Validation Error" ∧
    (NewValidationProblemDetails (some errs)).detail
      = "One or more fields failed validation." ∧
    (NewValidationProblemDetails (some errs)).type_
      = "https://example.com/validation-error" ∧
    (NewValidationProblemDetails (some errs)).extensions
      = [("errors", Json.arr ((errs.map fun vErr =>
          ({ field := vErr.field, message := formatValidationMessage vErr }
            : ValidationErrorDetail)).map ValidationErrorDetail.toJson))] ∧
    (SendResponse 400 none
        (some (NewValidationProblemDetails (some errs))) none).status = 400 ∧
    (ParseRequest zero setParam engine bodyStream paramExtractor pathParams).err
      = some "validation error" := by
  rw [ParseRequest_eq_parseLoop zero setParam engine bodyStream paramExtractor
    pathParams request0 hbody]
  have happ := parseLoop_append_ok zero setParam engine paramExtractor pathParams []
    request0 t1 hne hok
  simp only [List.append_nil] at happ
  obtain ⟨hw, he, -, -, -, -⟩ := happ
  have htail : parseLoop zero setParam engine paramExtractor t1 []
      = { writes := [SendResponse 400 none
            (some (NewValidationProblemDetails (some errs))) none],
          trace := [TraceEvent.validateCall], result := zero,
          err := some "validation error" } := by
    simp [parseLoop, IsRequestValid, hviol]
  exact ⟨by rw [hw, htail], rfl, rfl, rfl, rfl, rfl, rfl, by rw [he, htail]⟩

/-- Witness for the amended C5: a concrete run with one `required`
violation. -/
theorem C5_validation_problem_witness :
    (ParseRequest (0 : Nat) (fun t _ _ => Except.ok t)
        (fun _ => StructValidationResult.violations
          [{ field := "Name", tag := "required" }])
        none (fun _ => "x") []).err = some "validation error" ∧
    (ParseRequest (0 : Nat) (fun t _ _ => Except.ok t)
        (fun _ => StructValidationResult.violations
          [{ field := "Name", tag := "required" }])
        none (fun _ => "x") []).writes
      = [SendResponse 400 none (some (NewValidationProblemDetails
          (some [{ field := "Name", tag := "required" }]))) none] ∧
    (NewValidationProblemDetails
        (some [{ field := "Name", tag := "required" }])).title
      = "Validation Error" := by
  have h := C5_validation_problem (0 : Nat) (fun t _ _ => Except.ok t)
    (fun _ => StructValidationResult.violations
      [{ field := "Name", tag := "required" }])
    none (fun _ => "x") [] 0 0 [{ field := "Name", tag := "required" }]
    (Or.inl ⟨rfl, rfl⟩) (by simp) rfl rfl
  exact ⟨h.2.2.2.2.2.2.2, h.1, h.2.2.1⟩

/-- C6: the validation adapter produces one entry per violated constraint,
in encounter order, each message formatted as
`<FieldName> failed <ConstraintName> validation`; when no constraint is
violated it returns the no-errors sentinel `nil`. -/
theorem C6_validation_report {T : Type} (engine : T → StructValidationResult)
    (t : T) (errs : List FieldError) :
    (engine t = StructValidationResult.violations errs →
      IsRequestValid engine t = some (NewValidationProblemDetails (some errs)) ∧
      (NewValidationProblemDetails (some errs)).extensions
        = [("errors", Json.arr (errs.map fun vErr =>
            Json.obj [("field", Json.str vErr.field),
              ("message",
                Json.str (vErr.field ++ " failed " ++ vErr.tag ++ " validation"))]))]) ∧
    (engine t = StructValidationResult.valid → IsRequestValid engine t = none) := by
  constructor
  · intro h
    refine ⟨by simp [IsRequestValid, h], ?_⟩
    simp [NewValidationProblemDetails, ValidationErrorDetail.toJson,
      formatValidationMessage, List.map_map, Function.comp]
  · intro h
    simp [IsRequestValid, h]

/-- Witness for C6: two violations of the same field accumulate in
encounter order with the fixed message format; a valid target yields the
sentinel. -/
theorem C6_validation_report_witness :
    IsRequestValid (fun _ : Unit => StructValidationResult.violations
        [{ field := "Age", tag := "required" }, { field := "Age", tag := "min" }]) ()
      = some (NewValidationProblemDetails
          (some [{ field := "Age", tag := "required" },
            { field := "Age", tag := "min" }])) ∧
    (NewValidationProblemDetails
        (some [{ field := "Age", tag := "required" },
          { field := "Age", tag := "min" }])).extensions
      = [("errors", Json.arr
          [Json.obj [("field", Json.str "Age"),
            ("message", Json.str "Age failed required validation")],
           Json.obj [("field", Json.str "Age"),
            ("message", Json.str "Age failed min validation")]])] ∧
    IsRequestValid (fun _ : Unit => StructValidationResult.valid) () = none := by
  have h := C6_validation_report
    (fun _ : Unit => StructValidationResult.violations
      [{ field := "Age", tag := "required" }, { field := "Age", tag := "min" }]) ()
    [{ field := "Age", tag := "required" }, { field := "Age", tag := "min" }]
  have h2 := C6_validation_report (fun _ : Unit => StructValidationResult.valid) () []
  obtain ⟨ha, hb⟩ := h.1 rfl
  exact ⟨ha, by rw [hb]; simp, h2.2 rfl⟩

end Httpsuite
